import Mathlib

/-!
Shallow embedding of `src/bot.py` (spiritedshe-bot): the navigation state
machine and callback-routing protocol of a menu-driven storefront bot.

The transport layer (python-telegram-bot) is modelled as a trace of
effects: each handler returns the ordered list of transport calls it
performs.  A Python `IndexError` escaping the handler is modelled as a
`RouterError` value paired with the effects performed before the raise.

Prices are Python floats formatted with `f"{price:.2f}"`; every price in
the catalog is an exact multiple of one cent (and far below the range
where a float would not represent such a value exactly), so prices are
embedded as natural numbers of cents and the format as the corresponding
two-decimal rendering.
-/

/-- A product record, from the inner dictionaries of `PRODUCTS` in
`src/bot.py`.  `price` is in cents (see the module comment). -/
structure Product where
  name : String
  price : Nat
  description : String
  image_url : String
deriving DecidableEq, Repr

/-- A category record, from the outer entries of `PRODUCTS`:
a display name plus an insertion-ordered association list of products. -/
structure Category where
  name : String
  items : List (String × Product)
deriving DecidableEq, Repr

/-- An inline keyboard button: label text plus callback token,
from `InlineKeyboardButton(text, callback_data=...)`. -/
structure Button where
  text : String
  callback_data : String
deriving DecidableEq, Repr

/-- A keyboard is a list of button rows, from `InlineKeyboardMarkup(keyboard)`. -/
abbrev Keyboard := List (List Button)

/-- One transport call performed by a handler, in order of execution:
`query.answer()`, `update.message.reply_text(...)`,
`query.edit_message_text(...)` (markup `none` when no `reply_markup`
argument is passed), `query.message.reply_photo(...)`, and
`query.message.delete()`. -/
inductive Effect where
  | answerCallback : Effect
  | replyText (text : String) (markup : Keyboard) : Effect
  | editMessageText (text : String) (markup : Option Keyboard) : Effect
  | replyPhoto (photo : String) (caption : String) (parseMode : String) (markup : Keyboard) : Effect
  | deleteMessage : Effect
deriving DecidableEq, Repr

/-- A Python exception escaping the handler: `parts[i]` out of range. -/
inductive RouterError where
  | indexError : RouterError
deriving DecidableEq, Repr

/-- Result of running one handler: the transport calls actually made, and
the exception, if one escaped (effects before the raise are kept). -/
abbrev HandlerResult := List Effect × Option RouterError

/-- Python `dict.get` on an insertion-ordered string-keyed dict,
returning the first (unique) binding. -/
def dictGet {α : Type} : List (String × α) → String → Option α
  | [], _ => none
  | (k, v) :: rest, key => if k = key then some v else dictGet rest key

/-- The `"gems"` category of `PRODUCTS` in `src/bot.py`. -/
def gemsCategory : Category :=
  { name := "💎 Gems (ကျောက်မျက်များ)"
    items :=
      [ ("gem1",
          { name := "နီလာ (Sapphire)"
            price := 30000
            description := "A deep blue, high-quality sapphire."
            image_url := "https://placehold.co/600x600/3A5FCD/FFFFFF?text=နီလာ" })
      , ("gem2",
          { name := "ပတ္တမြား (Ruby)"
            price := 50000
            description := "A vibrant red ruby, the king of gems."
            image_url := "https://placehold.co/600x600/E0115F/FFFFFF?text=ပတ္တမြား" })
      , ("gem3",
          { name := "သူယောင်"
            price := 15000
            description := "A beautiful and unique Thuyawng gemstone."
            image_url := "https://placehold.co/600x600/F0E68C/000000?text=သူယောင်" })
      , ("gem4",
          { name := "ခရမ်းဆွဲ (Amethyst)"
            price := 12000
            description := "A stunning purple amethyst with excellent clarity."
            image_url := "https://placehold.co/600x600/9966CC/FFFFFF?text=ခရမ်းဆွဲ" })
      , ("gem5",
          { name := "Blue Topaz"
            price := 18000
            description := "A brilliant, sky-blue topaz gemstone."
            image_url := "https://placehold.co/600x600/72BCD4/FFFFFF?text=Blue+Topaz" })
      , ("gem6",
          { name := "စလင်းဝါ (Yellow Gem)"
            price := 16000
            description := "A bright yellow gemstone, full of light."
            image_url := "https://placehold.co/600x600/FFD700/000000?text=စလင်းဝါ" }) ] }

/-- The `"rings"` category of `PRODUCTS`. -/
def ringsCategory : Category :=
  { name := "💍 Rings"
    items :=
      [ ("ring1",
          { name := "Moonstone Radiance Ring"
            price := 12000
            description := "An ethereal moonstone set in a delicate sterling silver band. Captures the light beautifully."
            image_url := "https://placehold.co/600x600/E2E8F0/4A5568?text=Moonstone+Ring" }) ] }

/-- The `"necklaces"` category of `PRODUCTS`. -/
def necklacesCategory : Category :=
  { name := "✨ Necklaces"
    items :=
      [ ("necklace1",
          { name := "Celestial Pearl Necklace"
            price := 18000
            description := "A single, luminous freshwater pearl on a fine gold chain. Timeless elegance."
            image_url := "https://placehold.co/600x600/FEEBC8/975A16?text=Pearl+Necklace" }) ] }

/-- The `"pendants"` category of `PRODUCTS`. -/
def pendantsCategory : Category :=
  { name := "💖 Pendants"
    items :=
      [ ("pendant1",
          { name := "Rose Quartz Heart Pendant"
            price := 9500
            description := "A symbol of love, this polished rose quartz pendant hangs gracefully."
            image_url := "https://placehold.co/600x600/FED7E2/9B2C2C?text=Heart+Pendant" }) ] }

/-- The module-level catalog `PRODUCTS` of `src/bot.py`, as an
insertion-ordered association list (Python dicts preserve insertion
order). -/
def PRODUCTS : List (String × Category) :=
  [ ("gems", gemsCategory)
  , ("rings", ringsCategory)
  , ("necklaces", necklacesCategory)
  , ("pendants", pendantsCategory) ]

/-- Splits off the segment before the first `'_'`, if any. -/
def splitFirstAux : List Char → Option (List Char × List Char)
  | [] => none
  | c :: cs =>
    if c = '_' then some ([], cs)
    else
      match splitFirstAux cs with
      | none => none
      | some (a, b) => some (c :: a, b)

/-- Python `s.split('_', 2)`: at most two splits, so at most three parts,
with the third part keeping any remaining underscores. -/
def pySplit2 (s : String) : List String :=
  match splitFirstAux s.data with
  | none => [s]
  | some (a, rest) =>
    match splitFirstAux rest with
    | none => [⟨a⟩, ⟨rest⟩]
    | some (b, c) => [⟨a⟩, ⟨b⟩, ⟨c⟩]

/-- Python `f"{price:.2f}"` on a price held in cents (see the module
comment): integer part, a dot, then exactly two digits. -/
def formatPrice2 (cents : Nat) : String :=
  toString (cents / 100) ++ "." ++
    (if cents % 100 < 10 then "0" ++ toString (cents % 100) else toString (cents % 100))

/-- The two-stage product lookup
`PRODUCTS.get(category_key, {}).get("items", {}).get(product_key)`:
a missing category behaves like an empty item dict. -/
def productLookup (category_key product_key : String) : Option Product :=
  match dictGet PRODUCTS category_key with
  | none => none
  | some category => dictGet category.items product_key

/-- The per-category button column built by `start` and
`go_back_to_categories`: one row per category, in catalog order. -/
def categoryKeyboard : Keyboard :=
  PRODUCTS.map (fun e => [{ text := e.2.name, callback_data := "category_" ++ e.1 }])

/-- `start` from `src/bot.py`: welcome text plus category keyboard. -/
def start (first_name : String) : List Effect :=
  [Effect.replyText
    ("Welcome to SpiritedSHE, " ++ first_name ++ "!\n\n" ++
      "I'm your personal assistant for exploring our beautiful gems and jewelry. " ++
      "Please select a category to begin browsing:")
    categoryKeyboard]

/-- `show_products_in_category` from `src/bot.py`: error text on a failed
category lookup, otherwise one button per product in insertion order
followed by a back row. -/
def show_products_in_category (category_key : String) : List Effect :=
  match dictGet PRODUCTS category_key with
  | none => [Effect.editMessageText "Sorry, category not found." none]
  | some category =>
    let keyboard : Keyboard :=
      category.items.map
        (fun e => [{ text := e.2.name
                     callback_data := "product_" ++ category_key ++ "_" ++ e.1 }]) ++
      [[{ text := "⬅️ Back to Categories", callback_data := "back_categories" }]]
    [Effect.editMessageText ("Showing products in " ++ category.name ++ ":") (some keyboard)]

/-- `show_product_details` from `src/bot.py`: error text on a failed
product lookup; otherwise a photo message carrying the caption and the
add/back keyboard, then deletion of the triggering message. -/
def show_product_details (category_key product_key : String) : List Effect :=
  match productLookup category_key product_key with
  | none => [Effect.editMessageText "Sorry, product not found." none]
  | some product =>
    let caption :=
      "🌟 *" ++ product.name ++ "*\n\n_" ++ product.description ++ "_\n\n💰 *Price: $" ++
        formatPrice2 product.price ++ "*"
    let categoryName :=
      match dictGet PRODUCTS category_key with
      | none => ""
      | some category => category.name
    let keyboard : Keyboard :=
      [ [{ text := "🛒 Add to Cart", callback_data := "add_" ++ category_key ++ "_" ++ product_key }]
      , [{ text := "⬅️ Back to " ++ categoryName, callback_data := "category_" ++ category_key }] ]
    [Effect.replyPhoto product.image_url caption "Markdown" keyboard, Effect.deleteMessage]

/-- `go_back_to_categories` from `src/bot.py`: re-render the category
menu in place. -/
def go_back_to_categories : List Effect :=
  [Effect.editMessageText "Please select a category to continue browsing:" (some categoryKeyboard)]

/-- `button_handler` from `src/bot.py`: acknowledge the callback, split
the token into at most three parts, and dispatch on the leading verb.
Accessing a missing part (`parts[1]` / `parts[2]`) raises `IndexError`,
recorded alongside the effects already performed. -/
def button_handler (token : String) : HandlerResult :=
  let parts := pySplit2 token
  let query_type := parts.headD ""
  if query_type = "category" then
    match parts.get? 1 with
    | none => ([Effect.answerCallback], some RouterError.indexError)
    | some category_key =>
      (Effect.answerCallback :: show_products_in_category category_key, none)
  else if query_type = "product" then
    match parts.get? 1, parts.get? 2 with
    | some category_key, some product_key =>
      (Effect.answerCallback :: show_product_details category_key product_key, none)
    | _, _ => ([Effect.answerCallback], some RouterError.indexError)
  else if query_type = "back" then
    (Effect.answerCallback :: go_back_to_categories, none)
  else
    ([Effect.answerCallback], none)

/-- The caption of the first photo message in an effect trace, if any. -/
def captionOf : List Effect → Option String
  | [] => none
  | Effect.replyPhoto _ caption _ _ :: _ => some caption
  | _ :: rest => captionOf rest

/-- All buttons attached to one effect, row by row. -/
def effectButtons : Effect → List Button
  | Effect.replyText _ kb => kb.flatten
  | Effect.editMessageText _ (some kb) => kb.flatten
  | Effect.replyPhoto _ _ _ kb => kb.flatten
  | _ => []

/-- All buttons attached anywhere in an effect trace. -/
def buttonsOf (efs : List Effect) : List Button :=
  (efs.map effectButtons).flatten

/-- Whether `sub` occurs as a prefix of `l`. -/
def startsWithChars : List Char → List Char → Bool
  | [], _ => true
  | _ :: _, [] => false
  | a :: as, b :: bs => a = b && startsWithChars as bs

/-- Whether `sub` occurs contiguously inside `l`. -/
def containsSub (sub l : List Char) : Bool :=
  match l with
  | [] => startsWithChars sub []
  | _ :: cs => startsWithChars sub l || containsSub sub cs

/-- Whether a string is a digit string with exactly two digits after a
single trailing decimal point. -/
def twoDecimalPlaces (s : String) : Bool :=
  match s.data.reverse with
  | d1 :: d2 :: '.' :: rest => d1.isDigit && d2.isDigit && rest.all Char.isDigit && !rest.isEmpty
  | _ => false

theorem splitFirstAux_of_not_mem (l : List Char) (h : '_' ∉ l) : splitFirstAux l = none := by
  induction l with
  | nil => rfl
  | cons c cs ih =>
    simp only [List.mem_cons, not_or] at h
    have h1 : ¬ c = '_' := fun hc => h.1 hc.symm
    simp [splitFirstAux, h1, ih h.2]

theorem splitFirstAux_append (a : List Char) (h : '_' ∉ a) (b : List Char) :
    splitFirstAux (a ++ '_' :: b) = some (a, b) := by
  induction a with
  | nil => simp [splitFirstAux]
  | cons c cs ih =>
    simp only [List.mem_cons, not_or] at h
    have h1 : ¬ c = '_' := fun hc => h.1 hc.symm
    simp [splitFirstAux, h1, ih h.2]

theorem pySplit2_eq_two (a b t : String) (ha : '_' ∉ a.data) (hb : '_' ∉ b.data)
    (ht : t.data = a.data ++ '_' :: b.data) : pySplit2 t = [a, b] := by
  unfold pySplit2
  rw [ht, splitFirstAux_append a.data ha]
  dsimp only
  rw [splitFirstAux_of_not_mem b.data hb]

theorem pySplit2_eq_three (a b r t : String) (ha : '_' ∉ a.data) (hb : '_' ∉ b.data)
    (ht : t.data = a.data ++ '_' :: (b.data ++ '_' :: r.data)) : pySplit2 t = [a, b, r] := by
  unfold pySplit2
  rw [ht, splitFirstAux_append a.data ha]
  dsimp only
  rw [splitFirstAux_append b.data hb]

theorem pySplit2_headD (v s t : String) (hv : '_' ∉ v.data)
    (ht : t.data = v.data ++ '_' :: s.data) : (pySplit2 t).headD "" = v := by
  unfold pySplit2
  rw [ht, splitFirstAux_append v.data hv]
  dsimp only
  cases h2 : splitFirstAux s.data with
  | none => rfl
  | some p => rcases p with ⟨x, y⟩; rfl

theorem pySplit2_length_le (t : String) : (pySplit2 t).length ≤ 3 := by
  unfold pySplit2
  split
  · simp
  · split
    · simp
    · simp

theorem handler_unknown_verb (t : String)
    (h1 : (pySplit2 t).headD "" ≠ "category")
    (h2 : (pySplit2 t).headD "" ≠ "product")
    (h3 : (pySplit2 t).headD "" ≠ "back") :
    button_handler t = ([Effect.answerCallback], none) := by
  rw [List.headD_eq_head?] at h1 h2 h3
  unfold button_handler
  simp [h1, h2, h3]

theorem handler_back (t : String) (h : (pySplit2 t).headD "" = "back") :
    button_handler t = (Effect.answerCallback :: go_back_to_categories, none) := by
  rw [List.headD_eq_head?] at h
  unfold button_handler
  simp [h]

theorem handler_category_key (k : String) (hk : '_' ∉ k.data) :
    button_handler ("category_" ++ k) =
      (Effect.answerCallback :: show_products_in_category k, none) := by
  have hsplit : pySplit2 ("category_" ++ k) = ["category", k] :=
    pySplit2_eq_two "category" k _ (by decide) hk (by simp [String.data_append])
  unfold button_handler
  simp [hsplit]

theorem handler_product_keys (c r : String) (hc : '_' ∉ c.data) :
    button_handler ("product_" ++ c ++ "_" ++ r) =
      (Effect.answerCallback :: show_product_details c r, none) := by
  have hsplit : pySplit2 ("product_" ++ c ++ "_" ++ r) = ["product", c, r] :=
    pySplit2_eq_three "product" c r _ (by decide) hc (by simp [String.data_append])
  unfold button_handler
  simp [hsplit]

theorem handler_category_not_found (k : String) (hk : '_' ∉ k.data)
    (h : dictGet PRODUCTS k = none) :
    button_handler ("category_" ++ k) =
      ([Effect.answerCallback, Effect.editMessageText "Sorry, category not found." none], none) := by
  rw [handler_category_key k hk]
  unfold show_products_in_category
  rw [h]

theorem handler_product_not_found (c p : String) (hc : '_' ∉ c.data)
    (h : productLookup c p = none) :
    button_handler ("product_" ++ c ++ "_" ++ p) =
      ([Effect.answerCallback, Effect.editMessageText "Sorry, product not found." none], none) := by
  rw [handler_product_keys c p hc]
  unfold show_product_details
  rw [h]

theorem show_product_details_found (c p : String) (pr : Product)
    (h : productLookup c p = some pr) :
    show_product_details c p =
      [ Effect.replyPhoto pr.image_url
          ("🌟 *" ++ pr.name ++ "*\n\n_" ++ pr.description ++ "_\n\n💰 *Price: $" ++
            formatPrice2 pr.price ++ "*")
          "Markdown"
          [ [{ text := "🛒 Add to Cart", callback_data := "add_" ++ c ++ "_" ++ p }]
          , [{ text := "⬅️ Back to " ++
                 (match dictGet PRODUCTS c with
                  | none => ""
                  | some category => category.name)
               callback_data := "category_" ++ c }] ]
      , Effect.deleteMessage ] := by
  unfold show_product_details
  rw [h]

/-- One inbound request handled by the process: the `/start` command or a
callback token, the two handlers registered in `main`. -/
inductive Request where
  | startCmd (first_name : String) : Request
  | callback (token : String) : Request
deriving DecidableEq, Repr

/-- Dispatch of one inbound request to its registered handler. -/
def processRequest : Request → HandlerResult
  | Request.startCmd first_name => (start first_name, none)
  | Request.callback token => button_handler token

/-- A process lifetime: the requests of a run handled in order, each
against the module-level catalog. -/
def processRun (rs : List Request) : List HandlerResult :=
  rs.map processRequest

theorem processRun_getElem? (rs : List Request) (i : Nat) :
    (processRun rs)[i]? = rs[i]?.map processRequest := by
  simp [processRun]

theorem deleteMessage_only_on_found (ck pk : String)
    (h : Effect.deleteMessage ∈ show_product_details ck pk) :
    (productLookup ck pk).isSome = true := by
  cases hl : productLookup ck pk with
  | some pr => rfl
  | none =>
    unfold show_product_details at h
    rw [hl] at h
    simp at h

/-- C1, counterexample: the bare token `"category"` (and the two-segment
token `"product_gems"`) raises an `IndexError` out of `button_handler`
(`parts[1]` / `parts[2]` on a too-short split), so handling a malformed
token with a known verb but a missing required segment does crash the
router rather than fall back. -/
theorem C1_counterexample_missing_segment_crashes :
    button_handler "category" = ([Effect.answerCallback], some RouterError.indexError) ∧
    button_handler "product_gems" = ([Effect.answerCallback], some RouterError.indexError) := by
  constructor
  · decide
  · decide

/-- C1, amended: tokens with unknown verbs are silently ignored and
failed catalog lookups render explicit error text, with no exception in
either case; but a token whose verb is `category` or `product` and which
is missing a required segment raises an `IndexError` out of the router
(shown here for the bare token `"category"` and for `"product_gems"`). -/
theorem C1_malformed_token_fallbacks :
    (∀ t : String, (pySplit2 t).headD "" ∉ (["category", "product", "back"] : List String) →
      button_handler t = ([Effect.answerCallback], none)) ∧
    (∀ k : String, '_' ∉ k.data → dictGet PRODUCTS k = none →
      button_handler ("category_" ++ k) =
        ([Effect.answerCallback, Effect.editMessageText "Sorry, category not found." none], none)) ∧
    (∀ c p : String, '_' ∉ c.data → productLookup c p = none →
      button_handler ("product_" ++ c ++ "_" ++ p) =
        ([Effect.answerCallback, Effect.editMessageText "Sorry, product not found." none], none)) ∧
    (button_handler "category").2 = some RouterError.indexError ∧
    (button_handler "product_gems").2 = some RouterError.indexError := by
  refine ⟨?_, ?_, ?_, by decide, by decide⟩
  · intro t ht
    simp only [List.mem_cons, List.not_mem_nil, or_false, not_or] at ht
    exact handler_unknown_verb t ht.1 ht.2.1 ht.2.2
  · intro k hk h
    exact handler_category_not_found k hk h
  · intro c p hc h
    exact handler_product_not_found c p hc h

/-- C1 witness: concrete instances of the amended claim — an unknown-verb
token is a silent no-op, and failed category/product lookups surface
error text without crashing. -/
theorem C1_malformed_token_fallbacks_witness :
    button_handler "frobnicate_x" = ([Effect.answerCallback], none) ∧
    button_handler ("category_" ++ "nosuch") =
      ([Effect.answerCallback, Effect.editMessageText "Sorry, category not found." none], none) ∧
    button_handler ("product_" ++ "gems" ++ "_" ++ "nosuch") =
      ([Effect.answerCallback, Effect.editMessageText "Sorry, product not found." none], none) :=
  ⟨C1_malformed_token_fallbacks.1 "frobnicate_x" (by decide),
   C1_malformed_token_fallbacks.2.1 "nosuch" (by decide) (by decide),
   C1_malformed_token_fallbacks.2.2.1 "gems" "nosuch" (by decide) (by decide)⟩

/-- C5: every token whose leading verb segment is `back` — the bare token
`"back"` or `"back_"` followed by any suffix whatsoever — re-renders the
category menu in place, with one button per category in catalog order. -/
theorem C5_back_token_always_category_menu :
    (∀ s : String, button_handler ("back_" ++ s) =
      (Effect.answerCallback :: go_back_to_categories, none)) ∧
    button_handler "back" = (Effect.answerCallback :: go_back_to_categories, none) ∧
    go_back_to_categories =
      [Effect.editMessageText "Please select a category to continue browsing:"
        (some (PRODUCTS.map
          (fun e => [{ text := e.2.name, callback_data := "category_" ++ e.1 }])))] := by
  refine ⟨?_, by decide, by decide⟩
  intro s
  exact handler_back ("back_" ++ s)
    (pySplit2_headD "back" s _ (by decide) (by simp [String.data_append]))

/-- C6: a token whose leading verb segment is none of `category`,
`product`, `back` (including the `add_`-prefixed tokens of the Add to
Cart control) is a silent no-op: the callback is acknowledged, nothing
is rendered or modified, and no error escapes. -/
theorem C6_unknown_verb_silent_noop :
    ∀ t : String, (pySplit2 t).headD "" ∉ (["category", "product", "back"] : List String) →
      button_handler t = ([Effect.answerCallback], none) := by
  intro t ht
  simp only [List.mem_cons, List.not_mem_nil, or_false, not_or] at ht
  exact handler_unknown_verb t ht.1 ht.2.1 ht.2.2

/-- C6 witness: the unknown-verb token `"xyz_foo"` and the Add to Cart
token `"add_gems_gem1"` are both silent no-ops. -/
theorem C6_unknown_verb_silent_noop_witness :
    button_handler "xyz_foo" = ([Effect.answerCallback], none) ∧
    button_handler "add_gems_gem1" = ([Effect.answerCallback], none) :=
  ⟨C6_unknown_verb_silent_noop "xyz_foo" (by decide),
   C6_unknown_verb_silent_noop "add_gems_gem1" (by decide)⟩

/-- C7: for every well-formed category key (delimiter-free, per the
spec's key-composition invariant) absent from the catalog, the token
`"category_" ++ k` renders the not-found error text with no reply markup
attached, and the product-list rendering is not performed. -/
theorem C7_category_not_found_error_screen :
    ∀ k : String, '_' ∉ k.data → dictGet PRODUCTS k = none →
      button_handler ("category_" ++ k) =
        ([Effect.answerCallback, Effect.editMessageText "Sorry, category not found." none], none) := by
  intro k hk h
  exact handler_category_not_found k hk h

/-- C7 witness: `"category_doesnotexist"` yields exactly the error edit,
with `none` in place of a keyboard. -/
theorem C7_category_not_found_error_screen_witness :
    button_handler ("category_" ++ "doesnotexist") =
      ([Effect.answerCallback, Effect.editMessageText "Sorry, category not found." none], none) :=
  C7_category_not_found_error_screen "doesnotexist" (by decide) (by decide)

/-- C8: the decoder splits every token into at most 3 parts, and for a
delimiter-free category segment c, the remainder r of
`"product_" ++ c ++ "_" ++ r` — underscores and all — is kept whole as
the product key, which is exactly the key the product renderer is then
called with. -/
theorem C8_split_at_most_three_parts :
    (∀ t : String, (pySplit2 t).length ≤ 3) ∧
    (∀ c r : String, '_' ∉ c.data →
      pySplit2 ("product_" ++ c ++ "_" ++ r) = ["product", c, r] ∧
      button_handler ("product_" ++ c ++ "_" ++ r) =
        (Effect.answerCallback :: show_product_details c r, none)) := by
  refine ⟨pySplit2_length_le, ?_⟩
  intro c r hc
  refine ⟨pySplit2_eq_three "product" c r _ (by decide) hc (by simp [String.data_append]), ?_⟩
  exact handler_product_keys c r hc

/-- C8 witness: `"product_gems_gem1_x_y"` splits into
`["product", "gems", "gem1_x_y"]`, the underscored remainder being one
product key. -/
theorem C8_split_at_most_three_parts_witness :
    pySplit2 ("product_" ++ "gems" ++ "_" ++ "gem1_x_y") = ["product", "gems", "gem1_x_y"] ∧
    button_handler ("product_" ++ "gems" ++ "_" ++ "gem1_x_y") =
      (Effect.answerCallback :: show_product_details "gems" "gem1_x_y", none) :=
  C8_split_at_most_three_parts.2 "gems" "gem1_x_y" (by decide)

/-- C10: a `product` transition is atomic on lookup failure — the only
effect is editing the triggering message to the error text (so no photo
is sent and nothing is deleted) — and conversely the delete effect only
ever occurs when the lookup succeeded. -/
theorem C10_product_not_found_atomic :
    (∀ ck pk : String, productLookup ck pk = none →
      show_product_details ck pk = [Effect.editMessageText "Sorry, product not found." none]) ∧
    (∀ ck pk : String, Effect.deleteMessage ∈ show_product_details ck pk →
      (productLookup ck pk).isSome = true) := by
  constructor
  · intro ck pk h
    unfold show_product_details
    rw [h]
  · intro ck pk h
    exact deleteMessage_only_on_found ck pk h

/-- C10 witness: the failed lookup `("gems", "nosuch")` edits the
triggering message only, and the successful lookup `("gems", "gem1")`
is the only way a delete is issued. -/
theorem C10_product_not_found_atomic_witness :
    show_product_details "gems" "nosuch" = [Effect.editMessageText "Sorry, product not found." none] ∧
    (productLookup "gems" "gem1").isSome = true :=
  ⟨C10_product_not_found_atomic.1 "gems" "nosuch" (by decide),
   C10_product_not_found_atomic.2 "gems" "gem1" (by decide)⟩

/-- C3: for every category in the catalog, the token `"category_" ++ key`
renders the product list: one button per product in insertion order, each
labeled with the product name and carrying token
`"product_" ++ key ++ "_" ++ productKey`, followed by one trailing back
row with token `"back_categories"`. -/
theorem C3_category_token_renders_product_list :
    ∀ e ∈ PRODUCTS,
      button_handler ("category_" ++ e.1) =
        ( [ Effect.answerCallback
          , Effect.editMessageText ("Showing products in " ++ e.2.name ++ ":")
              (some (e.2.items.map
                  (fun q => [{ text := q.2.name
                               callback_data := "product_" ++ e.1 ++ "_" ++ q.1 }]) ++
                [[{ text := "⬅️ Back to Categories", callback_data := "back_categories" }]])) ]
        , none) := by
  intro e he
  fin_cases he <;> decide

/-- C3 witness: the gems category renders its six products in catalog
order followed by the back row. -/
theorem C3_category_token_renders_product_list_witness :
    button_handler ("category_" ++ "gems") =
      ( [ Effect.answerCallback
        , Effect.editMessageText ("Showing products in " ++ gemsCategory.name ++ ":")
            (some (gemsCategory.items.map
                (fun q => [{ text := q.2.name
                             callback_data := "product_" ++ "gems" ++ "_" ++ q.1 }]) ++
              [[{ text := "⬅️ Back to Categories", callback_data := "back_categories" }]])) ]
      , none) :=
  C3_category_token_renders_product_list ("gems", gemsCategory) (by decide)

/-- C2: for every product in the catalog, the token
`"product_" ++ categoryKey ++ "_" ++ productKey` succeeds, produces a
photo message whose caption contains the product's price with a `$`
prefix and exactly two decimal places, and attaches a button with token
`"add_" ++ categoryKey ++ "_" ++ productKey` and a button with token
`"category_" ++ categoryKey`. -/
theorem C2_product_token_renders_detail :
    ∀ e ∈ PRODUCTS, ∀ q ∈ e.2.items,
      (button_handler ("product_" ++ e.1 ++ "_" ++ q.1)).2 = none ∧
      (captionOf (button_handler ("product_" ++ e.1 ++ "_" ++ q.1)).1).isSome = true ∧
      containsSub ("$" ++ formatPrice2 q.2.price).data
        ((captionOf (button_handler ("product_" ++ e.1 ++ "_" ++ q.1)).1).getD "").data = true ∧
      twoDecimalPlaces (formatPrice2 q.2.price) = true ∧
      ({ text := "🛒 Add to Cart", callback_data := "add_" ++ e.1 ++ "_" ++ q.1 } : Button)
        ∈ buttonsOf (button_handler ("product_" ++ e.1 ++ "_" ++ q.1)).1 ∧
      ∃ b ∈ buttonsOf (button_handler ("product_" ++ e.1 ++ "_" ++ q.1)).1,
        b.callback_data = "category_" ++ e.1 := by
  intro e he
  fin_cases he <;> (intro q hq; fin_cases hq <;> decide)

/-- C2 witness: the ring product's token yields a successful detail
screen with the two-decimal dollar price in the caption and the add/back
buttons attached. -/
theorem C2_product_token_renders_detail_witness :
    (button_handler ("product_" ++ "rings" ++ "_" ++ "ring1")).2 = none ∧
    (captionOf (button_handler ("product_" ++ "rings" ++ "_" ++ "ring1")).1).isSome = true ∧
    containsSub ("$" ++ formatPrice2 (12000 : Nat)).data
      ((captionOf (button_handler ("product_" ++ "rings" ++ "_" ++ "ring1")).1).getD "").data = true ∧
    twoDecimalPlaces (formatPrice2 (12000 : Nat)) = true ∧
    ({ text := "🛒 Add to Cart", callback_data := "add_" ++ "rings" ++ "_" ++ "ring1" } : Button)
      ∈ buttonsOf (button_handler ("product_" ++ "rings" ++ "_" ++ "ring1")).1 ∧
    ∃ b ∈ buttonsOf (button_handler ("product_" ++ "rings" ++ "_" ++ "ring1")).1,
      b.callback_data = "category_" ++ "rings" :=
  C2_product_token_renders_detail ("rings", ringsCategory) (by decide)
    ("ring1", { name := "Moonstone Radiance Ring"
                price := 12000
                description := "An ethereal moonstone set in a delicate sterling silver band. Captures the light beautifully."
                image_url := "https://placehold.co/600x600/E2E8F0/4A5568?text=Moonstone+Ring" })
    (by decide)

/-- C4: on every successful product lookup the detail transition's effect
trace is exactly the photo-with-caption message followed by the deletion
of the triggering screen — the delete is issued strictly after the
replacement message call has returned, never first. -/
theorem C4_photo_sent_before_delete (ck pk : String)
    (h : (productLookup ck pk).isSome = true) :
    ∃ url caption kb,
      show_product_details ck pk =
        [Effect.replyPhoto url caption "Markdown" kb, Effect.deleteMessage] := by
  obtain ⟨pr, hpr⟩ := Option.isSome_iff_exists.mp h
  exact ⟨_, _, _, show_product_details_found ck pk pr hpr⟩

/-- C4 witness: the successful transition for `("gems", "gem1")` sends
the photo message first and deletes the triggering screen second. -/
theorem C4_photo_sent_before_delete_witness :
    (productLookup "gems" "gem1").isSome = true ∧
    ∃ url caption kb,
      show_product_details "gems" "gem1" =
        [Effect.replyPhoto url caption "Markdown" kb, Effect.deleteMessage] :=
  ⟨by decide, C4_photo_sent_before_delete "gems" "gem1" (by decide)⟩

/-- C9: within one process run the catalog never changes, so handling is
a pure function of the individual request: equal requests anywhere in a
run produce identical results, and each request's result is independent
of the requests handled before and after it. -/
theorem C9_catalog_stable_across_run :
    (∀ (rs : List Request) (i j : Nat), rs[i]? = rs[j]? →
      (processRun rs)[i]? = (processRun rs)[j]?) ∧
    (∀ (rs1 rs2 : List Request) (r : Request),
      (processRun (rs1 ++ r :: rs2))[rs1.length]? = some (processRequest r)) := by
  constructor
  · intro rs i j h
    rw [processRun_getElem?, processRun_getElem?, h]
  · intro rs1 rs2 r
    rw [processRun_getElem?, List.getElem?_append_right (Nat.le_refl _)]
    simp

/-- C9 witness: in the run menu → detail → menu, the first and third
requests are the same token and produce identical button sequences. -/
theorem C9_catalog_stable_across_run_witness :
    (processRun [Request.callback "category_gems", Request.callback "product_gems_gem1",
      Request.callback "category_gems"])[0]? =
    (processRun [Request.callback "category_gems", Request.callback "product_gems_gem1",
      Request.callback "category_gems"])[2]? :=
  C9_catalog_stable_across_run.1
    [Request.callback "category_gems", Request.callback "product_gems_gem1",
      Request.callback "category_gems"] 0 2 (by decide)
